import Mathlib

/-!
Verification of the multi-provider LLM orchestration and scoring engine of
the optisense.ai repository, as a shallow embedding in Lean.

Sources embedded (JavaScript):
- backend/src/services/llmService.js          (analyzeResponse, analyzeLLMVisibility,
  normalizeDomain, retry loop, PROMPT_TEMPLATES)
- backend/src/services/multiLLMService.js     (multi-provider aggregation)
- modelHealthCheckService (src/unnamed/part_006: MODELS, checkAllModels, isModelHealthy)
- promptGenerationService (src/unnamed/part_007: generateBusinessPrompts, getDefaultPrompts)

JavaScript strings are modelled as Lean Strings with all operations
implemented structurally over the underlying character list, so every
definition evaluates inside the kernel.  JavaScript numbers are modelled as
ℚ (every value occurring in this code - 0, 2, 2.5, 3, percentages - is an
exactly representable float, so float rounding never intervenes), with
Math.round embedded as jsRound.  Network calls and JSON.parse/stringify are
external effects: they enter the embedding as explicit oracle arguments, and
the control flow around them is translated from the source.
-/

namespace OptiSense

/-! ### JavaScript string primitives -/

/-- Character-list version of a prefix test (needle is a prefix of hay). -/
def isPrefixC (needle hay : List Char) : Bool :=
  match needle, hay with
  | [], _ => true
  | _, [] => false
  | x :: xs, y :: ys => x == y && isPrefixC xs ys

/-- Character-list substring test: needle occurs contiguously in hay.
JavaScript `hay.includes(needle)` is `isInfixC needle.data hay.data`. -/
def isInfixC (needle : List Char) : List Char → Bool
  | [] => isPrefixC needle []
  | c :: rest => isPrefixC needle (c :: rest) || isInfixC needle rest

/-- JavaScript `hay.includes(needle)`. -/
def substrB (needle hay : String) : Bool :=
  isInfixC needle.data hay.data

/-- ASCII lower-casing of one character (the only case change relevant to the
domains and fixed sentinel strings this code compares). -/
def lowerChar (c : Char) : Char :=
  if 65 ≤ c.toNat ∧ c.toNat ≤ 90 then Char.ofNat (c.toNat + 32) else c

/-- JavaScript `s.toLowerCase()`. -/
def jsToLower (s : String) : String :=
  ⟨s.data.map lowerChar⟩

/-- Replace every `'.'` by `repl` (JS `s.replace(RE_dot_g, repl)`). -/
def replaceDots (repl : List Char) : List Char → List Char
  | [] => []
  | c :: rest =>
    if c = '.' then repl ++ replaceDots repl rest else c :: replaceDots repl rest

/-- Replace the first occurrence of the pattern `pat` (JS
`s.replace(pat, repl)` with a string pattern replaces only the first hit). -/
def replaceFirstC (pat repl : List Char) : List Char → List Char
  | [] => []
  | c :: rest =>
    if isPrefixC pat (c :: rest) then repl ++ (c :: rest).drop pat.length
    else c :: replaceFirstC pat repl rest

/-- JS `s.replace(pat, repl)` with a plain-string pattern. -/
def jsReplaceFirst (s pat repl : String) : String :=
  ⟨replaceFirstC pat.data repl.data s.data⟩

/-- The whitespace class of the JS regex `\s` restricted to ASCII. -/
def isWsChar (c : Char) : Bool :=
  c = ' ' ∨ c = '\t' ∨ c = '\n' ∨ c = '\r' ∨ c = '\x0b' ∨ c = '\x0c'

/-- JS `s.trim()`. -/
def jsTrim (s : String) : String :=
  ⟨((s.data.dropWhile isWsChar).reverse.dropWhile isWsChar).reverse⟩

/-- JS `Math.round`: round half toward positive infinity. -/
def jsRound (q : ℚ) : ℤ := ⌊q + 1/2⌋

theorem jsRound_zero : jsRound 0 = 0 := by norm_num [jsRound]

theorem jsRound_two : jsRound 2 = 2 := by norm_num [jsRound]

theorem jsRound_half_three : jsRound (5/2) = 3 := by norm_num [jsRound]

theorem jsRound_three : jsRound 3 = 3 := by norm_num [jsRound]

/-! ### llmService.js : normalizeDomain and the Response Analyzer -/

/-- The `^https?:\/\/(www\.)?` strip of `normalizeDomain`: the `www.` part is
removed only when it directly follows a scheme, as in the source regex. -/
def dropSchemeWww (l : List Char) : List Char :=
  if isPrefixC "https://".data l then
    let r := l.drop 8
    if isPrefixC "www.".data r then r.drop 4 else r
  else if isPrefixC "http://".data l then
    let r := l.drop 7
    if isPrefixC "www.".data r then r.drop 4 else r
  else l

/-- `normalizeDomain` (llmService.js lines 464-470): lower-case, strip scheme
and `www.`, strip one trailing slash, then keep everything before the first
remaining `/`. -/
def normalizeDomain (domain : String) : String :=
  let l := (jsToLower domain).data
  let l := dropSchemeWww l
  let l := if l.getLast? = some '/' then l.dropLast else l
  ⟨l.takeWhile (· ≠ '/')⟩

/-- The four domain-variant substrings checked for a mention
(llmService.js lines 321-326 and 340-345). -/
def domainVariants (nd : String) : List String :=
  [nd, "www." ++ nd, ⟨replaceDots " ".data nd.data⟩, ⟨replaceDots " dot ".data nd.data⟩]

/-- A JSON value as it matters to `analyzeResponse`: the citation filter keeps
only elements with `typeof url === 'string'`, so non-string array members are
collapsed to one constructor. -/
inductive JVal where
  | str (s : String)
  | other
deriving DecidableEq

/-- The structured answer a provider returns after JSON parsing
(`description`, `citations`, `mentionsDomain`; `reasoning` is never read by
the analyzer).  `none` fields model absent/undefined keys, and a
`citations` field that is not an array is modelled as `none` because the
source guards with `Array.isArray`. -/
structure ParsedResponse where
  description : Option String := none
  citations : Option (List JVal) := none
  mentionsDomain : Option Bool := none
deriving DecidableEq

/-- Characters that terminate a URL match of the regex
`https?:\/\/[^\s<>"]+` (ASCII `\s` plus the three literals). -/
def isUrlStop (c : Char) : Bool :=
  isWsChar c ∨ c = '<' ∨ c = '>' ∨ c = '"'

theorem isPrefixC_length {n l : List Char} (h : isPrefixC n l = true) :
    n.length ≤ l.length := by
  induction n generalizing l with
  | nil => simp
  | cons a as ih =>
    cases l with
    | nil => simp [isPrefixC] at h
    | cons b bs =>
      simp only [isPrefixC, Bool.and_eq_true] at h
      simpa using ih h.2

/-- All matches of the global regex `https?:\/\/[^\s<>"]+` in a character
list: at each position try to match a scheme followed by at least one
non-stop character; a match consumes its characters, a failed position
advances by one (llmService.js line 333).  The scan is driven by a fuel
counter (each step consumes at least one character, so fuel equal to the
list length never runs out); structural recursion on the fuel keeps the
function kernel-computable. -/
def extractUrlsGo (p8 p7 : List Char) : ℕ → List Char → List String
  | 0, _ => []
  | _, [] => []
  | fuel + 1, c :: rest =>
    if isPrefixC p8 (c :: rest) = true ∨ isPrefixC p7 (c :: rest) = true then
      let plen := if isPrefixC p8 (c :: rest) then 8 else 7
      let after := (c :: rest).drop plen
      let body := after.takeWhile (fun ch => ¬ isUrlStop ch)
      if body.isEmpty then extractUrlsGo p8 p7 fuel rest
      else (⟨(c :: rest).take plen ++ body⟩ : String) ::
        extractUrlsGo p8 p7 fuel (after.drop body.length)
    else extractUrlsGo p8 p7 fuel rest

/-- JS `response.match(RE_url_g) || []`. -/
def extractUrls (s : String) : List String :=
  extractUrlsGo "https://".data "http://".data s.data.length s.data

/-- JS `response.split(RE_sentence)[0]`: everything before the first `.`,
`!` or `?` (llmService.js line 366). -/
def firstSentence (s : String) : String :=
  ⟨s.data.takeWhile (fun c => c ≠ '.' ∧ c ≠ '!' ∧ c ≠ '?')⟩

/-- Citation filter on the parsed-JSON path (llmService.js lines 305-311):
keep array elements that are strings and whose normalized form contains, or
is contained in, the normalized target domain. -/
def parsedCitations (nd : String) (p : ParsedResponse) : List String :=
  match p.citations with
  | some arr =>
    arr.filterMap (fun v =>
      match v with
      | .str url =>
        let urlDomain := normalizeDomain url
        if substrB nd urlDomain || substrB urlDomain nd then some url else none
      | .other => none)
  | none => []

/-- Mention detection on the parsed-JSON path (llmService.js lines 313-330):
the `mentionsDomain === true` flag, OR-ed with a domain-variant scan over a
non-empty `description`. -/
def parsedMentioned (nd : String) (p : ParsedResponse) : Bool :=
  (p.mentionsDomain == some true) ||
    (match p.description with
     | some d =>
       if d = "" then false
       else (domainVariants nd).any (fun v => substrB v (jsToLower d))
     | none => false)

/-- Citation extraction on the raw-text fallback path (llmService.js lines
333-337): regex-extract URLs, keep those whose normalized form contains the
normalized target domain. -/
def rawCitations (nd : String) (response : String) : List String :=
  (extractUrls response).filter (fun url => substrB nd (normalizeDomain url))

/-- Mention detection on the raw-text fallback path (llmService.js lines
340-349): domain-variant scan over the whole lower-cased response. -/
def rawMentioned (nd : String) (response : String) : Bool :=
  (domainVariants nd).any (fun v => substrB v (jsToLower response))

/-- The `citations` local of `analyzeResponse` before scoring. -/
def citationsOf (nd : String) (response : String) (parsed : Option ParsedResponse) :
    List String :=
  match parsed with
  | some p => parsedCitations nd p
  | none => rawCitations nd response

/-- The `mentioned` local of `analyzeResponse` before scoring. -/
def mentionedOf (nd : String) (response : String) (parsed : Option ParsedResponse) :
    Bool :=
  match parsed with
  | some p => parsedMentioned nd p
  | none => rawMentioned nd response

/-- The raw score before rounding (llmService.js lines 352-374): 3 with a
citation, else 2 for a mention upgraded to 2.5 when the normalized domain
appears in the first sentence, else 0. -/
def rawScore (nd : String) (response : String) (cits : List String) (ment : Bool) : ℚ :=
  if ¬ cits.isEmpty then 3
  else if ment then
    if substrB nd (jsToLower (firstSentence response)) then 5/2 else 2
  else 0

/-- The confidence tier chosen alongside the score. -/
def confidenceOf (cits : List String) (ment : Bool) : String :=
  if ¬ cits.isEmpty then "high"
  else if ment then "medium"
  else "low"

/-- Return value of `analyzeResponse`.  The `score` field holds
`Math.round(score)` (llmService.js line 378), so it is always an integer
value even though its JS type is number. -/
structure AnalyzedResponse where
  mentioned : Bool
  score : ℚ
  citations : List String
  confidence : String
deriving DecidableEq

/-- `analyzeResponse(response, domain, parsedResponse)` (llmService.js lines
295-382). -/
def analyzeResponse (response : String) (domain : String)
    (parsedResponse : Option ParsedResponse := none) : AnalyzedResponse :=
  let nd := normalizeDomain domain
  let cits := citationsOf nd response parsedResponse
  let ment := mentionedOf nd response parsedResponse
  { mentioned := ment
    score := ((jsRound (rawScore nd response cits ment) : ℤ) : ℚ)
    citations := cits
    confidence := confidenceOf cits ment }

theorem analyzeResponse_citations (response domain : String)
    (parsed : Option ParsedResponse) :
    (analyzeResponse response domain parsed).citations
      = citationsOf (normalizeDomain domain) response parsed := rfl

theorem analyzeResponse_mentioned (response domain : String)
    (parsed : Option ParsedResponse) :
    (analyzeResponse response domain parsed).mentioned
      = mentionedOf (normalizeDomain domain) response parsed := rfl

theorem analyzeResponse_score_eq (response domain : String)
    (parsed : Option ParsedResponse) :
    (analyzeResponse response domain parsed).score =
      ((jsRound (rawScore (normalizeDomain domain) response
          (citationsOf (normalizeDomain domain) response parsed)
          (mentionedOf (normalizeDomain domain) response parsed)) : ℤ) : ℚ) := rfl

/-- The raw score is one of the four source literals. -/
theorem rawScore_cases (nd response : String) (cits : List String) (ment : Bool) :
    rawScore nd response cits ment = 0 ∨ rawScore nd response cits ment = 2 ∨
    rawScore nd response cits ment = 5/2 ∨ rawScore nd response cits ment = 3 := by
  unfold rawScore
  split_ifs <;> simp

/-- Bounds on the rounded score: every analyzer output is 0, 2 or 3. -/
theorem analyzeResponse_score_cases (response domain : String)
    (parsed : Option ParsedResponse) :
    (analyzeResponse response domain parsed).score = 0 ∨
    (analyzeResponse response domain parsed).score = 2 ∨
    (analyzeResponse response domain parsed).score = 3 := by
  rw [analyzeResponse_score_eq]
  rcases rawScore_cases (normalizeDomain domain) response
      (citationsOf (normalizeDomain domain) response parsed)
      (mentionedOf (normalizeDomain domain) response parsed) with h | h | h | h <;>
    rw [h]
  · left; rw [jsRound_zero]; norm_num
  · right; left; rw [jsRound_two]; norm_num
  · right; right; rw [jsRound_half_three]; norm_num
  · right; right; rw [jsRound_three]; norm_num

theorem analyzeResponse_score_bounds (response domain : String)
    (parsed : Option ParsedResponse) :
    0 ≤ (analyzeResponse response domain parsed).score ∧
      (analyzeResponse response domain parsed).score ≤ 3 := by
  rcases analyzeResponse_score_cases response domain parsed with h | h | h <;>
    rw [h] <;> norm_num

/-! ### llmService.js : the Visibility Run Orchestrator -/

/-- One test query (id, template with placeholders, category tag). -/
structure PromptTemplate where
  id : String
  template : String
  category : String
deriving DecidableEq

/-- The static built-in prompt set (llmService.js lines 14-30). -/
def PROMPT_TEMPLATES : List PromptTemplate :=
  [ { id := "brand-knowledge"
      template := "Describe what the brand {brand} is, based only on what you already know. What type of entity is it, what does it do, and how would an AI categorize it?"
      category := "brand-awareness" }
  , { id := "website-understanding"
      template := "Explain what someone would understand about {brand} from visiting {domain}. Summarize the mission, audience, and main offering."
      category := "website-analysis" }
  , { id := "authoritative-sources"
      template := "If someone asked where to find reliable, official information about {brand}, what sources would you recommend? Explain why these sources appear authoritative."
      category := "citation-capture" } ]

/-- Placeholder substitution (llmService.js lines 85-88); each `replace` with
a string pattern substitutes only the first occurrence. -/
def buildPrompt (pt : PromptTemplate) (domain brand topic : String) : String :=
  jsReplaceFirst (jsReplaceFirst (jsReplaceFirst pt.template "{domain}" domain)
    "{brand}" brand) "{topic}" topic

/-- The `analysisResult` object a provider branch hands to the final
analysis step: response text, optional parsed JSON, token estimate. -/
structure AnalysisInput where
  response : String
  parsedResponse : Option ParsedResponse
  tokensUsed : ℕ
deriving DecidableEq

/-- One entry of the report's `details` array.  `response = none` and
`error = some msg` model the error entry pushed in the catch block
(llmService.js lines 257-267); a success entry always has `error = none`. -/
structure DetailEntry where
  promptId : String
  prompt : String
  response : Option String
  domainMentioned : Bool
  score : ℚ
  citations : List String
  confidence : String
  tokensUsed : ℕ
  error : Option String
deriving DecidableEq

/-- One iteration of the prompt loop (llmService.js lines 82-268), given the
outcome of the provider interaction for this prompt: on success the response
is analyzed and a scored entry is pushed; on a thrown provider error the
catch block pushes a zero-score entry carrying the error message, and the
loop moves on (the function never rethrows). -/
def runPrompt (domain : String) (pt : PromptTemplate) (prompt : String)
    (outcome : Except String AnalysisInput) : DetailEntry :=
  match outcome with
  | .ok ai =>
    let analysis := analyzeResponse ai.response domain ai.parsedResponse
    { promptId := pt.id
      prompt := prompt
      response := some ai.response
      domainMentioned := analysis.mentioned
      score := analysis.score
      citations := analysis.citations
      confidence := analysis.confidence
      tokensUsed := ai.tokensUsed
      error := none }
  | .error msg =>
    { promptId := pt.id
      prompt := pt.template
      response := none
      domainMentioned := false
      score := 0
      citations := []
      confidence := "low"
      tokensUsed := 0
      error := some msg }

/-- The aggregate visibility report (llmService.js lines 277-289). -/
structure VisibilityReport where
  totalScore : ℚ
  maxScore : ℕ
  percentage : ℤ
  details : List DetailEntry
  totalTokens : ℕ

/-- `analyzeLLMVisibility` restricted to its orchestration core
(llmService.js lines 43-290): the provider interaction for each prompt is an
oracle from the prompt template to either a thrown error message or an
`analysisResult`.  Prompts are processed sequentially in list order; per-
prompt failures become zero-score error entries; afterwards
`maxScore = promptCount * 3` and `percentage = Math.round(totalScore /
maxScore * 100)`. -/
def analyzeLLMVisibility (domain brand topic : String)
    (prompts : List PromptTemplate)
    (oracle : PromptTemplate → Except String AnalysisInput) : VisibilityReport :=
  let details := prompts.map (fun pt =>
    runPrompt domain pt (buildPrompt pt domain brand topic) (oracle pt))
  let totalScore := (details.map (·.score)).sum
  let totalTokens := (details.map (·.tokensUsed)).sum
  let maxScore := prompts.length * 3
  let percentage := jsRound (totalScore / (maxScore : ℚ) * 100)
  { totalScore := totalScore
    maxScore := maxScore
    percentage := percentage
    details := details
    totalTokens := totalTokens }

/-! ### llmService.js : single-provider retry loop -/

/-- Classification of a thrown provider error as retryable 503/overload
(llmService.js lines 169-171): the error message contains `503`,
`Service Unavailable` or `overloaded`. -/
def is503Error (msg : String) : Bool :=
  substrB "503" msg || substrB "Service Unavailable" msg || substrB "overloaded" msg

deriving instance DecidableEq for Except

/-- Outcome of the retry loop: the final result, how many provider calls
were issued, and the backoff delays (ms) slept between attempts. -/
structure RetryResult where
  result : Except String String
  callsMade : ℕ
  delays : List ℕ
deriving DecidableEq

/-- The retry loop of llmService.js lines 156-184, parameterized by the
sequence of provider-call outcomes (`calls n` is what attempt `n` does):
on success break; on a 503-classified error with attempts remaining sleep
`baseDelay * 2 ^ attempt` and retry; otherwise rethrow.  `fuel + 1` is the
number of loop iterations still allowed (so the JS guard
`attempt < maxRetries - 1` is `0 < fuel`); the `fuel = 0` base case mirrors
the unreachable `throw lastError` after the loop (lines 186-188). -/
def retryFrom (calls : ℕ → Except String String) (baseDelay attempt : ℕ) :
    ℕ → RetryResult
  | 0 => ⟨.error "Failed to get response after retries", attempt, []⟩
  | fuel + 1 =>
    match calls attempt with
    | .ok r => ⟨.ok r, attempt + 1, []⟩
    | .error e =>
      if is503Error e ∧ 0 < fuel then
        let rest := retryFrom calls baseDelay (attempt + 1) fuel
        ⟨rest.result, rest.callsMade, baseDelay * 2 ^ attempt :: rest.delays⟩
      else ⟨.error e, attempt + 1, []⟩

/-- The retry loop with the source constants `maxRetries = 3`,
`baseDelay = 1000` (llmService.js lines 159-160). -/
def generateWithRetry (calls : ℕ → Except String String) : RetryResult :=
  retryFrom calls 1000 0 3

/-! ### multiLLMService.js and the premium per-prompt path of llmService.js -/

/-- Result of the parallel three-branch fan-out
(multiLLMService.js lines 19-53): each branch is `none` when its promise
was caught (error pushed to `errors`) or the branch returned null. -/
structure MultiLLMResult where
  gemini : Option ParsedResponse
  openrouter1 : Option ParsedResponse
  openrouter2 : Option ParsedResponse
deriving DecidableEq

/-- `multiLLMResult.gemini || multiLLMResult.openrouter1 ||
multiLLMResult.openrouter2 || {}` (llmService.js line 112). -/
def primaryResponse (m : MultiLLMResult) : ParsedResponse :=
  ((m.gemini.orElse (fun _ => m.openrouter1)).orElse (fun _ => m.openrouter2)).getD {}

/-- `multiLLMResult.<branch>?.citations || []` (llmService.js lines 114-116). -/
def branchCitations (b : Option ParsedResponse) : List JVal :=
  match b with
  | some p => p.citations.getD []
  | none => []

/-- JS `[...new Set(xs)]`: de-duplicate keeping first occurrences.  (A `Set`
compares objects by reference; only string citations occur here, for which
this is value equality.) -/
def jsSetDedup {α : Type} [DecidableEq α] (xs : List α) : List α :=
  xs.foldl (fun acc x => if x ∈ acc then acc else acc ++ [x]) []

/-- `allCitations` (llmService.js lines 113-117). -/
def allCitations (m : MultiLLMResult) : List JVal :=
  branchCitations m.gemini ++ branchCitations m.openrouter1 ++ branchCitations m.openrouter2

/-- `uniqueCitations` (llmService.js line 118). -/
def uniqueCitations (m : MultiLLMResult) : List JVal :=
  jsSetDedup (allCitations m)

/-- The premium-path `analysisResult` object (llmService.js lines 120-127). -/
structure PremiumAnalysisResult where
  response : String
  parsedResponse : Option ParsedResponse
  citations : List JVal
  mentioned : Bool
  tokensUsed : ℕ

/-- Construction of the premium `analysisResult` (llmService.js lines
111-127).  `stringify` stands for the external `JSON.stringify`; it only
determines the `response` text and the token estimate, never the parsed
object handed on. -/
def premiumAnalysisResult (stringify : ParsedResponse → String) (prompt : String)
    (m : MultiLLMResult) : PremiumAnalysisResult :=
  let primary := primaryResponse m
  let unique := uniqueCitations m
  { response := stringify primary
    parsedResponse := some primary
    citations := unique
    mentioned := !unique.isEmpty || primary.mentionsDomain.getD false
    tokensUsed := (prompt.length + (stringify primary).length + 3) / 4 }

/-- The detail entry pushed for a premium prompt (llmService.js lines
215-242): the code re-analyzes `analysisResult.response` with
`analysisResult.parsedResponse` (the primary branch's answer) and records
THAT analysis - its `citations`, `mentioned`, `score`, `confidence` -
in the pushed entry. -/
def premiumPromptEntry (stringify : ParsedResponse → String) (domain : String)
    (pt : PromptTemplate) (prompt : String) (m : MultiLLMResult) : DetailEntry :=
  let ar := premiumAnalysisResult stringify prompt m
  let analysis := analyzeResponse ar.response domain ar.parsedResponse
  { promptId := pt.id
    prompt := prompt
    response := some ar.response
    domainMentioned := analysis.mentioned
    score := analysis.score
    citations := analysis.citations
    confidence := analysis.confidence
    tokensUsed := ar.tokensUsed
    error := none }

/-! ### promptGenerationService (src/unnamed/part_007) -/

/-- Strip of every occurrence of the fence pattern `p :: ps` together with
one directly following newline, mirroring the global regexes of part_007
line 48.  Fuel-driven for the same reason as `extractUrlsGo`. -/
def removeFenceGo (p : Char) (ps : List Char) : ℕ → List Char → List Char
  | 0, l => l
  | _, [] => []
  | fuel + 1, c :: rest =>
    if isPrefixC (p :: ps) (c :: rest) then
      let after := (c :: rest).drop (ps.length + 1)
      if after.head? = some '\n' then removeFenceGo p ps fuel after.tail
      else removeFenceGo p ps fuel after
    else c :: removeFenceGo p ps fuel rest

/-- Remove every `p :: ps` occurrence plus one following newline. -/
def removeFencePlusNl (p : Char) (ps : List Char) (l : List Char) : List Char :=
  removeFenceGo p ps l.length l

/-- `responseText.replace(RE_fence_json, '').replace(RE_fence, '').trim()`
(part_007 line 48). -/
def stripFences (s : String) : String :=
  jsTrim ⟨removeFencePlusNl '`' "``".data (removeFencePlusNl '`' "``json".data s.data)⟩

/-- The match of the regex `\[.*\]` with dot-matches-newline (part_007 line
51): greedy, so from the first `[` to the last `]` after it. -/
def matchJsonArray (s : String) : Option String :=
  match s.data.dropWhile (· ≠ '[') with
  | [] => none
  | c :: rest =>
    match ((c :: rest).reverse.dropWhile (· ≠ ']')).reverse with
    | [] => none
    | u :: us => some ⟨u :: us⟩

/-- Split a character list at newlines (JS `s.split('\n')`). -/
def splitNl : List Char → List (List Char)
  | [] => [[]]
  | c :: rest =>
    match splitNl rest with
    | [] => [[]]
    | h :: t => if c = '\n' then [] :: h :: t else (c :: h) :: t

/-- ASCII digit test. -/
def isDigitC (c : Char) : Bool :=
  48 ≤ c.toNat ∧ c.toNat ≤ 57

/-- Test for the regex `^\d+\.`. -/
def startsNumDot (l : List Char) : Bool :=
  let ds := l.takeWhile isDigitC
  !ds.isEmpty && (l.drop ds.length).head? = some '.'

/-- The line filter of the text-extraction fallback (part_007 lines 65-69):
trimmed length over 20 and a numbered / bulleted / quoted shape. -/
def promptLineFilter (line : List Char) : Bool :=
  let trimmed := (jsTrim ⟨line⟩).data
  trimmed.length > 20 &&
    (startsNumDot trimmed || trimmed.head? = some '-' || trimmed.head? = some '*' ||
      trimmed.head? = some '"')

/-- `line.replace(RE_num_dot_ws, '')` : drop a leading `digits.` and
following whitespace. -/
def stripNumDot (l : List Char) : List Char :=
  let ds := l.takeWhile isDigitC
  if !ds.isEmpty && (l.drop ds.length).head? = some '.' then
    ((l.drop ds.length).drop 1).dropWhile isWsChar
  else l

/-- `line.replace(RE_bullet_ws, '')` : drop a leading `-` or `*` and
following whitespace. -/
def stripBullet (l : List Char) : List Char :=
  match l with
  | c :: rest => if c = '-' ∨ c = '*' then rest.dropWhile isWsChar else l
  | [] => l

/-- `line.replace(RE_edge_quotes, '')` : drop one leading and one trailing
single or double quote. -/
def stripEdgeQuotes (l : List Char) : List Char :=
  let l1 := match l with
    | c :: rest => if c = '"' ∨ c = '\'' then rest else l
    | [] => l
  match l1.getLast? with
  | some c => if c = '"' ∨ c = '\'' then l1.dropLast else l1
  | none => l1

/-- The per-line cleanup of the text-extraction fallback (part_007 lines
72-77). -/
def cleanPromptLine (line : List Char) : String :=
  jsTrim ⟨stripEdgeQuotes (stripBullet (stripNumDot line))⟩

/-- `getDefaultPrompts(brandName, industry)` (part_007 lines 99-114): pure
string templating over the brand name and industry. -/
def getDefaultPrompts (brandName industry : String) : List String :=
  let industryContext := if industry ≠ "" then " in the " ++ industry ++ " industry" else ""
  [ "Describe what the brand " ++ brandName ++ " is" ++ industryContext ++
      ". What type of entity is it, what does it do, and how would an AI categorize it?"
  , "Explain what someone would understand about " ++ brandName ++
      " from visiting their website. Summarize the mission, audience, and main offering."
  , "If someone asked where to find reliable, official information about " ++ brandName ++
      ", what sources would you recommend? Explain why these sources appear authoritative."
  , "What are the top 5 websites" ++ industryContext ++
      "? List them with brief descriptions and explain why they are considered authoritative."
  , "How would you describe " ++ brandName ++ "\x27s position" ++ industryContext ++
      "? What makes them stand out or unique?"
  , "If someone searched for \"" ++ (if industry ≠ "" then industry else "services") ++
      " like " ++ brandName ++ "\", what would you recommend?"
  , "What are the key features or benefits that " ++ brandName ++ " offers" ++
      industryContext ++ "?"
  , "Who is the target audience for " ++ brandName ++ industryContext ++ "?"
  , "What problems does " ++ brandName ++ " solve" ++ industryContext ++ "?"
  , "How would you compare " ++ brandName ++ " to other similar businesses" ++
      industryContext ++ "?" ]

/-- Outcome of the single generation call `model.generateContent(prompt)`
inside `generateBusinessPrompts` (external network effect). -/
inductive GenCall where
  | callError (msg : String)
  | callOk (responseText : String)

/-- The parsed-JSON-array path of `generateBusinessPrompts` (part_007
lines 50-62).  `jsonParse` stands for the external `JSON.parse` applied to
the regex-matched text: `none` means the parse threw, `some none` a parsed
non-array, `some (some arr)` a parsed array (the `Array.isArray` guard).
`brandSummary` and `url` shape only the outbound prompt text, which is
part of the call oracle's input, so they do not appear in the embedding. -/
def promptsViaJsonArray (jsonParse : String → Option (Option (List String)))
    (cleaned : String) : Option (List String) :=
  match matchJsonArray cleaned with
  | some jsText =>
    match jsonParse jsText with
    | some (some prompts) =>
      if prompts.length ≥ 10 then some (prompts.take 10) else none
    | _ => none
  | none => none

/-- The text-extraction fallback plus the final default fallback
(part_007 lines 64-84). -/
def promptsViaLines (cleaned : String) (brandName industry : String) : List String :=
  let lines := (splitNl cleaned.data).filter promptLineFilter
  if lines.length ≥ 10 then (lines.take 10).map cleanPromptLine
  else getDefaultPrompts brandName industry

/-- Body of `generateBusinessPrompts` after the call: fenced-JSON cleanup,
then the parsed-array path, then the line-extraction path, then the
defaults. -/
def generateBusinessPrompts (call : GenCall)
    (jsonParse : String → Option (Option (List String)))
    (brandName industry : String) : List String :=
  match call with
  | .callError _ => getDefaultPrompts brandName industry
  | .callOk responseText =>
    let cleaned := stripFences responseText
    match promptsViaJsonArray jsonParse cleaned with
    | some ps => ps
    | none => promptsViaLines cleaned brandName industry

/-- The premium prompt-selection step of `analyzeLLMVisibility`
(llmService.js lines 56-80): on a successful generation the custom prompts
are wrapped with ids `custom-1..custom-n` and category `"custom"`; if the
whole generation step throws, the static templates are kept. -/
def selectPrompts (isPremium : Bool) (genOutcome : Except String (List String)) :
    List PromptTemplate :=
  if isPremium then
    match genOutcome with
    | .ok customPrompts =>
      customPrompts.enum.map (fun ip =>
        { id := "custom-" ++ toString (ip.1 + 1), template := ip.2, category := "custom" })
    | .error _ => PROMPT_TEMPLATES
  else PROMPT_TEMPLATES

/-! ### modelHealthCheckService (src/unnamed/part_006) -/

/-- Static model configuration (part_006 lines 14-134 entries). -/
structure ModelConfig where
  name : String
  provider : String
  free : Bool
  testPrompt : String
  deprecated : Bool := false
deriving DecidableEq

/-- The canned probe input shared by every entry of `MODELS`. -/
def cannedTestPrompt : String :=
  "Say \"OK\" in JSON format: \x7b\"status\": \"ok\"\x7d"

/-- The `MODELS` registry (part_006 lines 14-134), in source order. -/
def MODELS : List (String × ModelConfig) :=
  [ ("gemini", ⟨"gemini-2.5-flash", "google", true, cannedTestPrompt, false⟩)
  , ("geminiExp", ⟨"google/gemini-2.0-flash-exp:free", "openrouter", true, cannedTestPrompt, true⟩)
  , ("huggingfaceQwen", ⟨"Qwen/Qwen2.5-7B-Instruct", "huggingface", true, cannedTestPrompt, true⟩)
  , ("huggingfaceGemma", ⟨"google/gemma-2-9b-it", "huggingface", true, cannedTestPrompt, true⟩)
  , ("huggingfaceLlama", ⟨"meta-llama/Llama-3.1-8B-Instruct", "huggingface", true, cannedTestPrompt, true⟩)
  , ("huggingfaceMistral7B", ⟨"mistralai/Mistral-7B-Instruct-v0.3", "huggingface", true, cannedTestPrompt, true⟩)
  , ("huggingfaceMixtral", ⟨"mistralai/Mixtral-8x7B-Instruct-v0.1", "huggingface", true, cannedTestPrompt, true⟩)
  , ("huggingfaceLayoutLM", ⟨"microsoft/layoutlmv3-base", "huggingface", true, cannedTestPrompt, true⟩)
  , ("huggingfaceDistilBERT", ⟨"distilbert/distilbert-base-uncased", "huggingface", true, cannedTestPrompt, true⟩)
  , ("huggingfaceBGE", ⟨"BAAI/bge-large-en-v1.5", "huggingface", true, cannedTestPrompt, false⟩)
  , ("huggingfaceFlanT5", ⟨"google/flan-t5-base", "huggingface", true, cannedTestPrompt, true⟩)
  , ("openrouterDeepSeek", ⟨"deepseek/deepseek-r1:free", "openrouter", true, cannedTestPrompt, true⟩)
  , ("openrouterMistral", ⟨"mistralai/mistral-7b-instruct:free", "openrouter", true, cannedTestPrompt, false⟩)
  , ("openrouterQwenCoder", ⟨"qwen/qwen3-coder:free", "openrouter", true, cannedTestPrompt, true⟩)
  , ("openrouterDeepSeekChimera", ⟨"tngtech/deepseek-r1t2-chimera:free", "openrouter", true, cannedTestPrompt, false⟩)
  , ("openrouterSherlockDash", ⟨"openrouter/sherlock-dash-alpha", "openrouter", true, cannedTestPrompt, false⟩)
  , ("openrouterSherlockThink", ⟨"openrouter/sherlock-think-alpha", "openrouter", true, cannedTestPrompt, false⟩)
  , ("openrouterKatCoder", ⟨"kwaipilot/kat-coder-pro:free", "openrouter", true, cannedTestPrompt, false⟩) ]

/-- Lookup of a config by its registry key (JS `MODELS[key]`). -/
def modelConfig (key : String) : Option ModelConfig :=
  (MODELS.find? (fun kv => kv.1 == key)).map (·.2)

/-- JS `MODELS[key].deprecated` truthiness (absent key never occurs in the
source's hard-coded accesses). -/
def modelDeprecated (key : String) : Bool :=
  ((modelConfig key).map (·.deprecated)).getD false

/-- JS `MODELS[key].name`. -/
def modelNameOf (key : String) : String :=
  ((modelConfig key).map (·.name)).getD ""

/-- One health record as produced by the probe functions and the guard
branches of `checkAllModels` (part_006). -/
structure HealthResult where
  healthy : Bool
  responseTime : Option ℕ := none
  response : Option String := none
  error : Option String := none
  isRateLimit : Bool := false
  isDeprecated : Bool := false
  deprecated : Bool := false
  retryAfter : Option ℕ := none
  statusCode : Option ℕ := none
deriving DecidableEq

/-- The record written for a deprecated-flagged model without probing
(part_006, e.g. line 410). -/
def deprecatedRecord : HealthResult :=
  { healthy := false, error := some "Model deprecated", deprecated := true }

/-- The record written when a provider's API key is absent (part_006,
e.g. line 400). -/
def noKeyRecord : HealthResult :=
  { healthy := false, error := some "API key not configured" }

/-- Result of `checkAllModels`: the per-key records in write order, plus the
model names for which a network probe was actually issued. -/
structure CheckAllResult where
  results : List (String × HealthResult)
  probed : List String

/-- One unguarded probe write `results[key] = testX(MODELS[key].name)`. -/
def probeCheck (key : String) (probe : String → HealthResult) :
    (String × HealthResult) × List String :=
  ((key, probe (modelNameOf key)), [modelNameOf key])

/-- One guarded write: `if (!MODELS[key].deprecated) probe else deprecated
record` (part_006 lines 406-411 and analogues). -/
def guardedCheck (key : String) (probe : String → HealthResult) :
    (String × HealthResult) × List String :=
  if modelDeprecated key then ((key, deprecatedRecord), [])
  else probeCheck key probe

/-- The Gemini section of `checkAllModels` (part_006 lines 395-401). -/
def checkGeminiSection (geminiKey : Bool) (probe : String → HealthResult) :
    List ((String × HealthResult) × List String) :=
  if geminiKey then [probeCheck "gemini" probe]
  else [(("gemini", noKeyRecord), [])]

/-- The HuggingFace section of `checkAllModels` (part_006 lines 403-475):
seven guarded models, BGE probed unconditionally, FlanT5 guarded; without a
key every entry is the no-key record. -/
def checkHuggingFaceSection (hfKey : Bool) (probe : String → HealthResult) :
    List ((String × HealthResult) × List String) :=
  if hfKey then
    [ guardedCheck "huggingfaceQwen" probe
    , guardedCheck "huggingfaceGemma" probe
    , guardedCheck "huggingfaceLlama" probe
    , guardedCheck "huggingfaceMistral7B" probe
    , guardedCheck "huggingfaceMixtral" probe
    , guardedCheck "huggingfaceLayoutLM" probe
    , guardedCheck "huggingfaceDistilBERT" probe
    , probeCheck "huggingfaceBGE" probe
    , guardedCheck "huggingfaceFlanT5" probe ]
  else
    [ (("huggingfaceQwen", noKeyRecord), [])
    , (("huggingfaceGemma", noKeyRecord), [])
    , (("huggingfaceLlama", noKeyRecord), [])
    , (("huggingfaceMistral7B", noKeyRecord), [])
    , (("huggingfaceMixtral", noKeyRecord), [])
    , (("huggingfaceLayoutLM", noKeyRecord), [])
    , (("huggingfaceDistilBERT", noKeyRecord), [])
    , (("huggingfaceBGE", noKeyRecord), [])
    , (("huggingfaceFlanT5", noKeyRecord), []) ]

/-- The OpenRouter section of `checkAllModels` (part_006 lines 477-525):
three guarded models, five probed unconditionally; without a key every
entry is the no-key record (in the source's write order). -/
def checkOpenRouterSection (orKey : Bool) (probe : String → HealthResult) :
    List ((String × HealthResult) × List String) :=
  if orKey then
    [ guardedCheck "geminiExp" probe
    , guardedCheck "openrouterDeepSeek" probe
    , guardedCheck "openrouterQwenCoder" probe
    , probeCheck "openrouterMistral" probe
    , probeCheck "openrouterDeepSeekChimera" probe
    , probeCheck "openrouterSherlockDash" probe
    , probeCheck "openrouterSherlockThink" probe
    , probeCheck "openrouterKatCoder" probe ]
  else
    [ (("geminiExp", noKeyRecord), [])
    , (("openrouterDeepSeek", noKeyRecord), [])
    , (("openrouterMistral", noKeyRecord), [])
    , (("openrouterQwenCoder", noKeyRecord), [])
    , (("openrouterDeepSeekChimera", noKeyRecord), [])
    , (("openrouterSherlockDash", noKeyRecord), [])
    , (("openrouterSherlockThink", noKeyRecord), [])
    , (("openrouterKatCoder", noKeyRecord), []) ]

/-- `checkAllModels` (part_006 lines 391-546): one record per registry key,
network probes abstracted into the `probe` oracle (indexed by model name),
key presence for the three providers as booleans.  The returned `probed`
list names exactly the models for which a probe call was issued. -/
def checkAllModels (geminiKey hfKey orKey : Bool) (probe : String → HealthResult) :
    CheckAllResult :=
  let es := checkGeminiSection geminiKey probe ++ checkHuggingFaceSection hfKey probe ++
    checkOpenRouterSection orKey probe
  { results := es.map (·.1), probed := (es.map (·.2)).flatten }

/-- JS object lookup in the health cache (`healthStatus.models[k]`),
modelled as first hit in a key-record list. -/
def lookupA (cache : List (String × HealthResult)) (k : String) : Option HealthResult :=
  (cache.find? (fun kv => kv.1 == k)).map (·.2)

/-- The full-name-to-key alias map of `isModelHealthy` (part_006 lines
591-598). -/
def modelNameMap : List (String × String) :=
  [ ("mistralai/mistral-7b-instruct:free", "openrouterMistral")
  , ("openrouter/sherlock-dash-alpha", "openrouterSherlockDash")
  , ("openrouter/sherlock-think-alpha", "openrouterSherlockThink")
  , ("kwaipilot/kat-coder-pro:free", "openrouterKatCoder")
  , ("tngtech/deepseek-r1t2-chimera:free", "openrouterDeepSeekChimera") ]

/-- `isModelHealthy(modelName)` (part_006 lines 582-629) over an explicit
health cache: exact key, then alias map, then exact (case-insensitive)
config-name match, then bidirectional substring match, else the optimistic
`true` for never-probed models. -/
def isModelHealthy (cache : List (String × HealthResult)) (modelName : String) : Bool :=
  match lookupA cache modelName with
  | some r => r.healthy
  | none =>
    match ((modelNameMap.find? (fun kv => kv.1 == modelName)).map (·.2)).bind
        (lookupA cache) with
    | some r => r.healthy
    | none =>
      match MODELS.findSome? (fun kv =>
          if kv.2.name ≠ "" ∧ jsToLower kv.2.name == jsToLower modelName then
            (lookupA cache kv.1).map (·.healthy)
          else none) with
      | some b => b
      | none =>
        match cache.findSome? (fun kv =>
            match modelConfig kv.1 with
            | some cfg =>
              if cfg.name ≠ "" ∧
                  (substrB (jsToLower modelName) (jsToLower cfg.name) ∨
                    substrB (jsToLower cfg.name) (jsToLower modelName)) then
                some kv.2.healthy
              else none
            | none => none) with
        | some b => b
        | none => true

/-! ### Claim theorems: the Response Analyzer -/

theorem isEmpty_false_of_ne_nil {α : Type} {l : List α} (h : l ≠ []) :
    l.isEmpty = false := by
  cases l with
  | nil => exact absurd rfl h
  | cons a as => rfl

/-- C6: whenever `analyzeResponse` finds at least one domain-matching
citation - on the parsed-JSON path or on the raw-text path where URLs are
regex-extracted - it returns `score = 3` and `confidence = "high"`. -/
theorem citations_give_score_three (response domain : String)
    (parsed : Option ParsedResponse)
    (h : (analyzeResponse response domain parsed).citations ≠ []) :
    (analyzeResponse response domain parsed).score = 3 ∧
    (analyzeResponse response domain parsed).confidence = "high" := by
  have hc : citationsOf (normalizeDomain domain) response parsed ≠ [] := h
  have hne : (citationsOf (normalizeDomain domain) response parsed).isEmpty = false :=
    isEmpty_false_of_ne_nil hc
  constructor
  · rw [analyzeResponse_score_eq]
    unfold rawScore
    rw [if_pos (by simp [hne])]
    rw [jsRound_three]
    norm_num
  · show confidenceOf _ _ = _
    unfold confidenceOf
    rw [if_pos (by simp [hne])]

/-- C6 witness: the raw-text path with an exact URL on the target domain. -/
theorem citations_give_score_three_witness :
    (analyzeResponse "Visit https://example.com/about for info"
        "https://www.example.com/" none).citations ≠ [] ∧
    ((analyzeResponse "Visit https://example.com/about for info"
        "https://www.example.com/" none).score = 3 ∧
      (analyzeResponse "Visit https://example.com/about for info"
        "https://www.example.com/" none).confidence = "high") :=
  ⟨by with_unfolding_all decide,
    citations_give_score_three "Visit https://example.com/about for info"
      "https://www.example.com/" none (by with_unfolding_all decide)⟩

/-- C10: every element of the `citations` list returned by
`analyzeResponse` domain-matches the target: its normalized form contains
the normalized target domain or is contained in it (the parsed-object path
filters in both directions, the raw-text path keeps URLs containing the
target). -/
theorem citations_match_domain (response domain : String)
    (parsed : Option ParsedResponse) (c : String)
    (hc : c ∈ (analyzeResponse response domain parsed).citations) :
    substrB (normalizeDomain domain) (normalizeDomain c) = true ∨
    substrB (normalizeDomain c) (normalizeDomain domain) = true := by
  rw [analyzeResponse_citations] at hc
  cases parsed with
  | none =>
    replace hc : c ∈ (extractUrls response).filter
        (fun url => substrB (normalizeDomain domain) (normalizeDomain url)) := hc
    rw [List.mem_filter] at hc
    exact Or.inl hc.2
  | some p =>
    obtain ⟨desc, pcits, md⟩ := p
    cases pcits with
    | none =>
      replace hc : c ∈ ([] : List String) := hc
      simp at hc
    | some arr =>
      replace hc : c ∈ arr.filterMap (fun v =>
        match v with
        | JVal.str url =>
          if substrB (normalizeDomain domain) (normalizeDomain url) ||
              substrB (normalizeDomain url) (normalizeDomain domain) then some url
          else none
        | JVal.other => none) := hc
      rw [List.mem_filterMap] at hc
      obtain ⟨v, _, hmap⟩ := hc
      cases v with
      | other => simp at hmap
      | str url =>
        simp only at hmap
        by_cases hcond : (substrB (normalizeDomain domain) (normalizeDomain url) ||
            substrB (normalizeDomain url) (normalizeDomain domain)) = true
        · rw [if_pos hcond] at hmap
          obtain rfl : url = c := by injection hmap
          rcases Bool.or_eq_true _ _ |>.mp hcond with h | h
          · exact Or.inl h
          · exact Or.inr h
        · rw [if_neg hcond] at hmap
          exact absurd hmap (by simp)

/-- C10 witness: a parsed answer citing a subdomain page of the target. -/
theorem citations_match_domain_witness :
    "https://blog.example.com/post" ∈ (analyzeResponse "irrelevant" "example.com"
        (some { citations := some [JVal.str "https://blog.example.com/post",
                                   JVal.str "https://other.org"] })).citations ∧
    (substrB (normalizeDomain "example.com")
        (normalizeDomain "https://blog.example.com/post") = true ∨
      substrB (normalizeDomain "https://blog.example.com/post")
        (normalizeDomain "example.com") = true) :=
  ⟨by with_unfolding_all decide,
    citations_match_domain "irrelevant" "example.com"
      (some { citations := some [JVal.str "https://blog.example.com/post",
                                 JVal.str "https://other.org"] })
      "https://blog.example.com/post" (by with_unfolding_all decide)⟩

/-- C1 counterexample: a mentioned-but-uncited response whose first sentence
contains the (dot-free) normalized domain.  The analyzer's internal raw
score is 2.5, but `analyzeResponse` returns `Math.round(2.5) = 3`, so the
per-prompt score is neither 2 nor 2.5 - the claim's value set `{2, 2.5}`
and its "rounded only when summed" reading are both false of the code. -/
theorem halfpoint_rounded_in_analyzer :
    (analyzeResponse "localhost is fine" "localhost"
        (some { description := some "localhost", citations := some [],
                mentionsDomain := some true })).mentioned = true ∧
    (analyzeResponse "localhost is fine" "localhost"
        (some { description := some "localhost", citations := some [],
                mentionsDomain := some true })).citations = [] ∧
    (analyzeResponse "localhost is fine" "localhost"
        (some { description := some "localhost", citations := some [],
                mentionsDomain := some true })).score = 3 ∧
    ¬ ((analyzeResponse "localhost is fine" "localhost"
        (some { description := some "localhost", citations := some [],
                mentionsDomain := some true })).score = 2 ∨
       (analyzeResponse "localhost is fine" "localhost"
        (some { description := some "localhost", citations := some [],
                mentionsDomain := some true })).score = 5/2) := by
  refine ⟨by with_unfolding_all rfl, by with_unfolding_all rfl, ?_, ?_⟩
  · with_unfolding_all rfl
  · have h3 : (analyzeResponse "localhost is fine" "localhost"
        (some { description := some "localhost", citations := some [],
                mentionsDomain := some true })).score = 3 := by
      with_unfolding_all rfl
    rw [h3]
    norm_num

/-- C1 (amended): for a response where the domain is mentioned but no
domain-matching citation exists, `analyzeResponse` returns confidence
`"medium"` and a score in `{2, 3}`: 3 exactly when the normalized domain
appears in the first sentence (the internal 2.5 half-step is rounded by
`Math.round` inside the analyzer itself, before the per-prompt result is
built); the per-prompt detail entry then carries that already-rounded
integer unchanged. -/
theorem mention_without_citation_score (response domain : String)
    (parsed : Option ParsedResponse)
    (hcit : (analyzeResponse response domain parsed).citations = [])
    (hm : (analyzeResponse response domain parsed).mentioned = true) :
    (analyzeResponse response domain parsed).confidence = "medium" ∧
    (analyzeResponse response domain parsed).score =
      (if substrB (normalizeDomain domain) (jsToLower (firstSentence response))
        then 3 else 2) ∧
    ∀ (pt : PromptTemplate) (prompt : String) (ai : AnalysisInput),
      ai.response = response → ai.parsedResponse = parsed →
      (runPrompt domain pt prompt (.ok ai)).score
        = (analyzeResponse response domain parsed).score := by
  have hc : citationsOf (normalizeDomain domain) response parsed = [] := hcit
  have hmb : mentionedOf (normalizeDomain domain) response parsed = true := hm
  have hie : (citationsOf (normalizeDomain domain) response parsed).isEmpty = true := by
    rw [hc]; rfl
  refine ⟨?_, ?_, ?_⟩
  · show confidenceOf _ _ = _
    unfold confidenceOf
    rw [if_neg (by simp [hie]), if_pos (by simp [hmb])]
  · rw [analyzeResponse_score_eq]
    unfold rawScore
    rw [if_neg (by simp [hie]), if_pos (by simp [hmb])]
    by_cases hfs : substrB (normalizeDomain domain)
        (jsToLower (firstSentence response)) = true
    · rw [if_pos hfs, if_pos hfs, jsRound_half_three]; norm_num
    · rw [if_neg hfs, if_neg hfs, jsRound_two]; norm_num
  · intro pt prompt ai hr hp
    show (analyzeResponse ai.response domain ai.parsedResponse).score = _
    rw [hr, hp]

/-- C1 amended witness: the upgraded branch at a concrete input. -/
theorem mention_without_citation_score_witness :
    (analyzeResponse "localhost is great" "localhost"
        (some { mentionsDomain := some true })).citations = [] ∧
    (analyzeResponse "localhost is great" "localhost"
        (some { mentionsDomain := some true })).mentioned = true ∧
    ((analyzeResponse "localhost is great" "localhost"
        (some { mentionsDomain := some true })).confidence = "medium" ∧
      (analyzeResponse "localhost is great" "localhost"
        (some { mentionsDomain := some true })).score =
        (if substrB (normalizeDomain "localhost")
            (jsToLower (firstSentence "localhost is great")) then 3 else 2) ∧
      ∀ (pt : PromptTemplate) (prompt : String) (ai : AnalysisInput),
        ai.response = "localhost is great" →
        ai.parsedResponse = some { mentionsDomain := some true } →
        (runPrompt "localhost" pt prompt (.ok ai)).score
          = (analyzeResponse "localhost is great" "localhost"
              (some { mentionsDomain := some true })).score) :=
  ⟨by with_unfolding_all decide, by with_unfolding_all decide,
    mention_without_citation_score "localhost is great" "localhost"
      (some { mentionsDomain := some true })
      (by with_unfolding_all decide) (by with_unfolding_all decide)⟩

/-! ### Claim theorems: multi-provider aggregation -/

/-- The JSON.stringify output of the primary parsed answer used in the C2
run (its value never influences the citations field of the entry). -/
def geminiPrimaryJson : String :=
  "\x7b\"description\":\"We looked around.\",\"citations\":[],\"mentionsDomain\":false\x7d"

/-- A Gemini answer that mentions nothing and cites nothing. -/
def geminiNoCiteAnswer : ParsedResponse :=
  ⟨some "We looked around.", some [], some false⟩

/-- An OpenRouter answer citing the target domain. -/
def openrouterCiteAnswer : ParsedResponse :=
  ⟨some "See the site.", some [JVal.str "https://example.com"], some true⟩

/-- Three-branch outcome: Gemini answers without citations, the first
OpenRouter branch cites the domain, the second returned nothing. -/
def c2Branches : MultiLLMResult :=
  ⟨some geminiNoCiteAnswer, some openrouterCiteAnswer, none⟩

/-- The prompt template used in the C2 run. -/
def c2Prompt : PromptTemplate :=
  ⟨"custom-1", "Describe Example", "custom"⟩

/-- Three-branch outcome with only Gemini answering. -/
def c2GeminiOnly : MultiLLMResult :=
  ⟨some geminiNoCiteAnswer, none, none⟩

/-- C2 counterexample: the de-duplicated union (`uniqueCitations`) contains
the OpenRouter branch's citation, but the detail entry pushed for the
prompt re-analyzes only the primary (Gemini) answer, so its `citations`
field is empty - not the union the claim describes. -/
theorem premium_citations_not_union :
    (premiumPromptEntry (fun _ => geminiPrimaryJson) "example.com"
        c2Prompt "Describe Example" c2Branches).citations = [] ∧
    uniqueCitations c2Branches = [JVal.str "https://example.com"] ∧
    ([] : List String) ≠ ["https://example.com"] := by
  refine ⟨?_, ?_, ?_⟩
  · with_unfolding_all rfl
  · with_unfolding_all rfl
  · simp

/-- C2 (amended): in multi-provider mode the primary branch's parsed answer
(Gemini when present, else the first answering OpenRouter branch) is
authoritative for the recorded entry: both `domainMentioned` and the
`citations` field of the per-prompt result are computed from the primary
answer alone - the citations are the domain-filtered citations of the
primary branch, while the de-duplicated cross-branch union is only held in
the intermediate `analysisResult` and is discarded when the entry is
built. -/
theorem premium_entry_from_primary (stringify : ParsedResponse → String)
    (domain : String) (pt : PromptTemplate) (prompt : String) (m : MultiLLMResult) :
    (premiumPromptEntry stringify domain pt prompt m).citations
        = parsedCitations (normalizeDomain domain) (primaryResponse m) ∧
    (premiumPromptEntry stringify domain pt prompt m).domainMentioned
        = parsedMentioned (normalizeDomain domain) (primaryResponse m) ∧
    (∀ p, m.gemini = some p → primaryResponse m = p) := by
  refine ⟨rfl, rfl, ?_⟩
  intro p hp
  unfold primaryResponse
  rw [hp]
  rfl

/-- C2 amended witness: a concrete three-branch result with Gemini present. -/
theorem premium_entry_from_primary_witness :
    ((premiumPromptEntry (fun _ => geminiPrimaryJson) "example.com" c2Prompt
        "Describe Example" c2GeminiOnly).citations
        = parsedCitations (normalizeDomain "example.com") (primaryResponse c2GeminiOnly) ∧
      (premiumPromptEntry (fun _ => geminiPrimaryJson) "example.com" c2Prompt
        "Describe Example" c2GeminiOnly).domainMentioned
        = parsedMentioned (normalizeDomain "example.com") (primaryResponse c2GeminiOnly) ∧
      (∀ p, c2GeminiOnly.gemini = some p → primaryResponse c2GeminiOnly = p)) ∧
    c2GeminiOnly.gemini = some geminiNoCiteAnswer ∧
    primaryResponse c2GeminiOnly = geminiNoCiteAnswer :=
  ⟨premium_entry_from_primary (fun _ => geminiPrimaryJson) "example.com" c2Prompt
      "Describe Example" c2GeminiOnly,
    rfl,
    (premium_entry_from_primary (fun _ => geminiPrimaryJson) "example.com" c2Prompt
      "Describe Example" c2GeminiOnly).2.2 geminiNoCiteAnswer rfl⟩

/-! ### Claim theorems: error propagation and retry -/

/-- C3: provider-call errors never escape the prompt loop.  The report's
details are one entry per prompt in prompt order (the loop always
continues); a prompt whose provider interaction threw is recorded with
score 0 and a populated error field; and when every prompt fails the run
still aggregates to `totalScore = 0` and `percentage = 0` instead of
throwing (`analyzeLLMVisibility` is total by construction). -/
theorem provider_errors_never_escape (domain brand topic : String)
    (prompts : List PromptTemplate)
    (oracle : PromptTemplate → Except String AnalysisInput) :
    ((analyzeLLMVisibility domain brand topic prompts oracle).details
        = prompts.map (fun pt =>
            runPrompt domain pt (buildPrompt pt domain brand topic) (oracle pt))) ∧
    ((analyzeLLMVisibility domain brand topic prompts oracle).details.length
        = prompts.length) ∧
    (∀ pt msg, oracle pt = .error msg →
      (runPrompt domain pt (buildPrompt pt domain brand topic) (oracle pt)).score = 0 ∧
      (runPrompt domain pt (buildPrompt pt domain brand topic) (oracle pt)).error
        = some msg) ∧
    (prompts ≠ [] → (∀ pt ∈ prompts, ∃ msg, oracle pt = .error msg) →
      (analyzeLLMVisibility domain brand topic prompts oracle).totalScore = 0 ∧
      (analyzeLLMVisibility domain brand topic prompts oracle).percentage = 0) := by
  refine ⟨rfl, by simp [analyzeLLMVisibility], ?_, ?_⟩
  · intro pt msg h
    rw [h]
    exact ⟨rfl, rfl⟩
  · intro _ hall
    have hts : (analyzeLLMVisibility domain brand topic prompts oracle).totalScore = 0 := by
      show ((prompts.map (fun pt =>
        runPrompt domain pt (buildPrompt pt domain brand topic) (oracle pt))).map
          (·.score)).sum = 0
      apply List.sum_eq_zero
      intro x hx
      rw [List.map_map, List.mem_map] at hx
      obtain ⟨pt, hpt, hx⟩ := hx
      obtain ⟨msg, hmsg⟩ := hall pt hpt
      rw [← hx]
      show (runPrompt domain pt (buildPrompt pt domain brand topic) (oracle pt)).score = 0
      rw [hmsg]
      rfl
    have hper : (analyzeLLMVisibility domain brand topic prompts oracle).percentage
        = jsRound ((analyzeLLMVisibility domain brand topic prompts oracle).totalScore /
            ((prompts.length * 3 : ℕ) : ℚ) * 100) := rfl
    refine ⟨hts, ?_⟩
    rw [hper, hts]
    norm_num [jsRound]

/-- C3 witness: a three-prompt run where every provider call fails. -/
theorem provider_errors_never_escape_witness :
    (PROMPT_TEMPLATES ≠ [] ∧
      (∀ pt ∈ PROMPT_TEMPLATES, ∃ msg,
        (fun (_ : PromptTemplate) =>
          (Except.error "boom" : Except String AnalysisInput)) pt = .error msg)) ∧
    ((analyzeLLMVisibility "example.com" "Example" "topic" PROMPT_TEMPLATES
        (fun _ => .error "boom")).totalScore = 0 ∧
      (analyzeLLMVisibility "example.com" "Example" "topic" PROMPT_TEMPLATES
        (fun _ => .error "boom")).percentage = 0) :=
  ⟨⟨by decide, fun pt _ => ⟨"boom", rfl⟩⟩,
    (provider_errors_never_escape "example.com" "Example" "topic" PROMPT_TEMPLATES
      (fun _ => .error "boom")).2.2.2 (by decide) (fun pt _ => ⟨"boom", rfl⟩)⟩

/-- C4: the single-provider retry loop.  A provider failing twice with
transient (503-classified) errors and then succeeding is called exactly 3
times, the success is the final result, and the sleeps between attempts are
the exponential 1000 ms then 2000 ms.  A provider whose first failure is
not 503-classified (e.g. a 429 rate limit) is called once - no more than
the configured 3 attempts - the error is rethrown, and the prompt's detail
entry carries that error with score 0. -/
theorem retry_backoff_behavior :
    (∀ (calls : ℕ → Except String String) (e0 e1 r : String),
      calls 0 = .error e0 → is503Error e0 = true →
      calls 1 = .error e1 → is503Error e1 = true →
      calls 2 = .ok r →
      generateWithRetry calls = ⟨.ok r, 3, [1000, 2000]⟩) ∧
    (∀ (calls : ℕ → Except String String) (msg : String),
      calls 0 = .error msg → is503Error msg = false →
      generateWithRetry calls = ⟨.error msg, 1, []⟩ ∧ (1 : ℕ) ≤ 3 ∧
      ∀ (domain prompt : String) (pt : PromptTemplate),
        (runPrompt domain pt prompt (.error msg)).error = some msg ∧
        (runPrompt domain pt prompt (.error msg)).score = 0) := by
  constructor
  · intro calls e0 e1 r h0 h503a h1 h503b h2
    unfold generateWithRetry retryFrom
    rw [h0]
    simp only [h503a, true_and]
    rw [if_pos (by norm_num)]
    unfold retryFrom
    rw [h1]
    simp only [h503b, true_and]
    rw [if_pos (by norm_num)]
    unfold retryFrom
    rw [h2]
    norm_num
  · intro calls msg h0 hnot
    refine ⟨?_, by norm_num, ?_⟩
    · unfold generateWithRetry retryFrom
      rw [h0]
      simp only [hnot]
      norm_num
    · intro domain prompt pt
      exact ⟨rfl, rfl⟩

/-- C4 witness: both stub providers of the claim, run concretely. -/
theorem retry_backoff_behavior_witness :
    ((fun n => if n = 0 then (.error "503 Service Unavailable" : Except String String)
        else if n = 1 then .error "The model is overloaded"
        else .ok "OK") 0 = .error "503 Service Unavailable" ∧
      is503Error "503 Service Unavailable" = true ∧
      generateWithRetry (fun n =>
        if n = 0 then .error "503 Service Unavailable"
        else if n = 1 then .error "The model is overloaded"
        else .ok "OK") = ⟨.ok "OK", 3, [1000, 2000]⟩) ∧
    (is503Error "429 Too Many Requests" = false ∧
      generateWithRetry (fun _ => .error "429 Too Many Requests")
        = ⟨.error "429 Too Many Requests", 1, []⟩) := by
  refine ⟨⟨rfl, by decide, ?_⟩, by decide, ?_⟩
  · exact (retry_backoff_behavior.1 (fun n =>
      if n = 0 then .error "503 Service Unavailable"
      else if n = 1 then .error "The model is overloaded"
      else .ok "OK") "503 Service Unavailable" "The model is overloaded" "OK"
      rfl (by decide) rfl (by decide) rfl)
  · exact (retry_backoff_behavior.2 (fun _ => .error "429 Too Many Requests")
      "429 Too Many Requests" rfl (by decide)).1

/-! ### Claim theorems: aggregation -/

theorem jsRound_percentage_bounds (t m : ℚ) (h0 : 0 ≤ t) (h1 : t ≤ m) (hm : 0 < m) :
    0 ≤ jsRound (t / m * 100) ∧ jsRound (t / m * 100) ≤ 100 := by
  constructor
  · unfold jsRound
    have hq : (0 : ℚ) ≤ t / m * 100 := by positivity
    exact Int.floor_nonneg.mpr (by linarith)
  · unfold jsRound
    have hdiv : t / m ≤ 1 := by
      rw [div_le_one hm]; exact h1
    have hle : t / m * 100 + 1/2 ≤ 100 + 1/2 := by nlinarith
    calc ⌊t / m * 100 + 1/2⌋ ≤ ⌊(100 : ℚ) + 1/2⌋ := Int.floor_le_floor hle
      _ = 100 := by norm_num

theorem runPrompt_score_bounds (domain : String) (pt : PromptTemplate)
    (prompt : String) (outcome : Except String AnalysisInput) :
    0 ≤ (runPrompt domain pt prompt outcome).score ∧
      (runPrompt domain pt prompt outcome).score ≤ 3 := by
  cases outcome with
  | ok ai => exact analyzeResponse_score_bounds ai.response domain ai.parsedResponse
  | error msg =>
    constructor <;> norm_num [runPrompt]

theorem runPrompt_score_int (domain : String) (pt : PromptTemplate)
    (prompt : String) (outcome : Except String AnalysisInput) :
    ∃ k : ℤ, (runPrompt domain pt prompt outcome).score = (k : ℚ) := by
  cases outcome with
  | ok ai =>
    exact ⟨jsRound (rawScore (normalizeDomain domain) ai.response
      (citationsOf (normalizeDomain domain) ai.response ai.parsedResponse)
      (mentionedOf (normalizeDomain domain) ai.response ai.parsedResponse)), rfl⟩
  | error msg => exact ⟨0, by norm_num [runPrompt]⟩

theorem score_sum_bounds (l : List DetailEntry)
    (h : ∀ e ∈ l, 0 ≤ e.score ∧ e.score ≤ 3) :
    0 ≤ (l.map (·.score)).sum ∧ (l.map (·.score)).sum ≤ 3 * (l.length : ℚ) := by
  induction l with
  | nil => simp
  | cons a as ih =>
    have ha := h a (by simp)
    have ihh := ih (fun e he => h e (by simp [he]))
    simp only [List.map_cons, List.sum_cons, List.length_cons]
    push_cast
    constructor
    · linarith [ihh.1, ha.1]
    · linarith [ihh.2, ha.2]

/-- C5: for every run, `totalScore` is the sum of the per-prompt scores
(each an integer, since the analyzer rounds), `maxScore = promptCount * 3`,
`percentage = Math.round(totalScore / maxScore * 100)`, and over a
non-empty prompt set the percentage always lies in `[0, 100]`. -/
theorem report_aggregation (domain brand topic : String)
    (prompts : List PromptTemplate)
    (oracle : PromptTemplate → Except String AnalysisInput)
    (hne : prompts ≠ []) :
    (analyzeLLMVisibility domain brand topic prompts oracle).totalScore
        = ((analyzeLLMVisibility domain brand topic prompts oracle).details.map
            (·.score)).sum ∧
    (∀ e ∈ (analyzeLLMVisibility domain brand topic prompts oracle).details,
      ∃ k : ℤ, e.score = (k : ℚ)) ∧
    (analyzeLLMVisibility domain brand topic prompts oracle).maxScore
        = prompts.length * 3 ∧
    (analyzeLLMVisibility domain brand topic prompts oracle).percentage
        = jsRound ((analyzeLLMVisibility domain brand topic prompts oracle).totalScore /
            ((analyzeLLMVisibility domain brand topic prompts oracle).maxScore : ℚ) * 100) ∧
    0 ≤ (analyzeLLMVisibility domain brand topic prompts oracle).percentage ∧
    (analyzeLLMVisibility domain brand topic prompts oracle).percentage ≤ 100 := by
  have hmem : ∀ e ∈ (analyzeLLMVisibility domain brand topic prompts oracle).details,
      ∃ pt outcome, e = runPrompt domain pt (buildPrompt pt domain brand topic) outcome := by
    intro e he
    replace he : e ∈ prompts.map (fun pt =>
      runPrompt domain pt (buildPrompt pt domain brand topic) (oracle pt)) := he
    rw [List.mem_map] at he
    obtain ⟨pt, _, hpt⟩ := he
    exact ⟨pt, oracle pt, hpt.symm⟩
  have hbounds : ∀ e ∈ (analyzeLLMVisibility domain brand topic prompts oracle).details,
      0 ≤ e.score ∧ e.score ≤ 3 := by
    intro e he
    obtain ⟨pt, outcome, rfl⟩ := hmem e he
    exact runPrompt_score_bounds domain pt (buildPrompt pt domain brand topic) outcome
  have hsum := score_sum_bounds _ hbounds
  have hlen : (analyzeLLMVisibility domain brand topic prompts oracle).details.length
      = prompts.length := by
    simp [analyzeLLMVisibility]
  have hlpos : 0 < prompts.length := List.length_pos.mpr hne
  have hts : (analyzeLLMVisibility domain brand topic prompts oracle).totalScore
      = ((analyzeLLMVisibility domain brand topic prompts oracle).details.map
          (·.score)).sum := rfl
  refine ⟨hts, ?_, rfl, rfl, ?_⟩
  · intro e he
    obtain ⟨pt, outcome, rfl⟩ := hmem e he
    exact runPrompt_score_int domain pt (buildPrompt pt domain brand topic) outcome
  · have hm : (0 : ℚ) < ((prompts.length * 3 : ℕ) : ℚ) := by
      push_cast
      have : (0 : ℚ) < (prompts.length : ℚ) := by exact_mod_cast hlpos
      linarith
    have h1 : (analyzeLLMVisibility domain brand topic prompts oracle).totalScore ≤
        ((prompts.length * 3 : ℕ) : ℚ) := by
      rw [hts]
      calc _ ≤ 3 * ((analyzeLLMVisibility domain brand topic prompts
            oracle).details.length : ℚ) := hsum.2
        _ = ((prompts.length * 3 : ℕ) : ℚ) := by rw [hlen]; push_cast; ring
    have h0 : 0 ≤ (analyzeLLMVisibility domain brand topic prompts oracle).totalScore := by
      rw [hts]; exact hsum.1
    exact jsRound_percentage_bounds _ _ h0 h1 hm

/-- C5 witness: the static three-prompt set with failing providers. -/
theorem report_aggregation_witness :
    PROMPT_TEMPLATES ≠ [] ∧
    (0 ≤ (analyzeLLMVisibility "example.com" "Example" "topic" PROMPT_TEMPLATES
        (fun _ => .error "down")).percentage ∧
      (analyzeLLMVisibility "example.com" "Example" "topic" PROMPT_TEMPLATES
        (fun _ => .error "down")).percentage ≤ 100) :=
  ⟨by decide,
    (report_aggregation "example.com" "Example" "topic" PROMPT_TEMPLATES
      (fun _ => .error "down") (by decide)).2.2.2.2⟩

/-! ### Claim theorems: health monitor -/

theorem checkHuggingFaceSection_true (probe : String → HealthResult) :
    checkHuggingFaceSection true probe =
      [ (("huggingfaceQwen", deprecatedRecord), [])
      , (("huggingfaceGemma", deprecatedRecord), [])
      , (("huggingfaceLlama", deprecatedRecord), [])
      , (("huggingfaceMistral7B", deprecatedRecord), [])
      , (("huggingfaceMixtral", deprecatedRecord), [])
      , (("huggingfaceLayoutLM", deprecatedRecord), [])
      , (("huggingfaceDistilBERT", deprecatedRecord), [])
      , (("huggingfaceBGE", probe "BAAI/bge-large-en-v1.5"), ["BAAI/bge-large-en-v1.5"])
      , (("huggingfaceFlanT5", deprecatedRecord), []) ] := by
  with_unfolding_all rfl

theorem checkOpenRouterSection_true (probe : String → HealthResult) :
    checkOpenRouterSection true probe =
      [ (("geminiExp", deprecatedRecord), [])
      , (("openrouterDeepSeek", deprecatedRecord), [])
      , (("openrouterQwenCoder", deprecatedRecord), [])
      , (("openrouterMistral", probe "mistralai/mistral-7b-instruct:free"),
          ["mistralai/mistral-7b-instruct:free"])
      , (("openrouterDeepSeekChimera", probe "tngtech/deepseek-r1t2-chimera:free"),
          ["tngtech/deepseek-r1t2-chimera:free"])
      , (("openrouterSherlockDash", probe "openrouter/sherlock-dash-alpha"),
          ["openrouter/sherlock-dash-alpha"])
      , (("openrouterSherlockThink", probe "openrouter/sherlock-think-alpha"),
          ["openrouter/sherlock-think-alpha"])
      , (("openrouterKatCoder", probe "kwaipilot/kat-coder-pro:free"),
          ["kwaipilot/kat-coder-pro:free"]) ] := by
  with_unfolding_all rfl

theorem gemini_section_unhealthy (gk : Bool) (probe : String → HealthResult)
    (key : String) (r : HealthResult) (hdep : modelDeprecated key = true)
    (h : (key, r) ∈ (checkGeminiSection gk probe).map (·.1)) : r.healthy = false := by
  cases gk
  · simp [checkGeminiSection] at h
    rw [h.2]
    rfl
  · simp [checkGeminiSection, probeCheck] at h
    rw [h.1] at hdep
    exact absurd hdep (by decide)

theorem hf_section_unhealthy (hk : Bool) (probe : String → HealthResult)
    (key : String) (r : HealthResult) (hdep : modelDeprecated key = true)
    (h : (key, r) ∈ (checkHuggingFaceSection hk probe).map (·.1)) : r.healthy = false := by
  cases hk
  · simp [checkHuggingFaceSection] at h
    rcases h with h | h | h | h | h | h | h | h | h <;> rw [h.2] <;> rfl
  · rw [checkHuggingFaceSection_true] at h
    simp at h
    rcases h with h | h | h | h | h | h | h | h | h <;>
      obtain ⟨hkey, hrec⟩ := h <;> subst hkey <;> subst hrec <;>
      first
        | rfl
        | exact absurd hdep (by decide)

theorem or_section_unhealthy (ok : Bool) (probe : String → HealthResult)
    (key : String) (r : HealthResult) (hdep : modelDeprecated key = true)
    (h : (key, r) ∈ (checkOpenRouterSection ok probe).map (·.1)) : r.healthy = false := by
  cases ok
  · simp [checkOpenRouterSection] at h
    rcases h with h | h | h | h | h | h | h | h <;> rw [h.2] <;> rfl
  · rw [checkOpenRouterSection_true] at h
    simp at h
    rcases h with h | h | h | h | h | h | h | h <;>
      obtain ⟨hkey, hrec⟩ := h <;> subst hkey <;> subst hrec <;>
      first
        | rfl
        | exact absurd hdep (by decide)

/-- The probed-name list of a `checkAllModels` run, independent of the
probe oracle. -/
def probedNames (gk hk ok : Bool) : List String :=
  (if gk then ["gemini-2.5-flash"] else []) ++
  (if hk then ["BAAI/bge-large-en-v1.5"] else []) ++
  (if ok then
    [ "mistralai/mistral-7b-instruct:free"
    , "tngtech/deepseek-r1t2-chimera:free"
    , "openrouter/sherlock-dash-alpha"
    , "openrouter/sherlock-think-alpha"
    , "kwaipilot/kat-coder-pro:free" ]
  else [])

theorem checkAllModels_probed (gk hk ok : Bool) (probe : String → HealthResult) :
    (checkAllModels gk hk ok probe).probed = probedNames gk hk ok := by
  cases gk <;> cases hk <;> cases ok <;> with_unfolding_all rfl

/-- Every name in any probed list is one of the seven non-deprecated model
names. -/
theorem probedNames_subset (gk hk ok : Bool) (x : String) (h : x ∈ probedNames gk hk ok) :
    x ∈ [ "gemini-2.5-flash", "BAAI/bge-large-en-v1.5",
          "mistralai/mistral-7b-instruct:free", "tngtech/deepseek-r1t2-chimera:free",
          "openrouter/sherlock-dash-alpha", "openrouter/sherlock-think-alpha",
          "kwaipilot/kat-coder-pro:free" ] := by
  cases gk <;> cases hk <;> cases ok <;> simp [probedNames] at h ⊢ <;> tauto

theorem modelDeprecated_of_mem (key : String) (cfg : ModelConfig)
    (hmem : (key, cfg) ∈ MODELS) (hdep : cfg.deprecated = true) :
    modelDeprecated key = true := by
  simp only [ MODELS] at hmem
  fin_cases hmem <;> revert hdep <;> decide

theorem deprecated_name_not_probe_name (key : String) (cfg : ModelConfig)
    (hmem : (key, cfg) ∈ MODELS) (hdep : cfg.deprecated = true) :
    cfg.name ∉ [ "gemini-2.5-flash", "BAAI/bge-large-en-v1.5",
          "mistralai/mistral-7b-instruct:free", "tngtech/deepseek-r1t2-chimera:free",
          "openrouter/sherlock-dash-alpha", "openrouter/sherlock-think-alpha",
          "kwaipilot/kat-coder-pro:free" ] := by
  simp only [ MODELS] at hmem
  fin_cases hmem <;> revert hdep <;> decide

/-- C7: a model whose configuration carries the deprecated flag is recorded
by `checkAllModels` with `healthy = false` in every key configuration, and
its model name is never in the probed list - no network probe is issued
for it. -/
theorem deprecated_never_probed (gk hk ok : Bool) (probe : String → HealthResult)
    (key : String) (cfg : ModelConfig)
    (hmem : (key, cfg) ∈ MODELS) (hdep : cfg.deprecated = true) :
    (∀ r, (key, r) ∈ (checkAllModels gk hk ok probe).results → r.healthy = false) ∧
    cfg.name ∉ (checkAllModels gk hk ok probe).probed := by
  have hdk : modelDeprecated key = true := modelDeprecated_of_mem key cfg hmem hdep
  constructor
  · intro r hr
    replace hr : (key, r) ∈ (checkGeminiSection gk probe ++ checkHuggingFaceSection hk probe ++
        checkOpenRouterSection ok probe).map (·.1) := hr
    rw [List.map_append, List.map_append] at hr
    rcases List.mem_append.mp hr with hr | hr
    · rcases List.mem_append.mp hr with hr | hr
      · exact gemini_section_unhealthy gk probe key r hdk hr
      · exact hf_section_unhealthy hk probe key r hdk hr
    · exact or_section_unhealthy ok probe key r hdk hr
  · rw [checkAllModels_probed]
    intro hx
    exact deprecated_name_not_probe_name key cfg hmem hdep
      (probedNames_subset gk hk ok cfg.name hx)

/-- C7 witness: the deprecated `huggingfaceQwen` entry with all keys
present and a probe oracle that would report healthy. -/
theorem deprecated_never_probed_witness :
    ("huggingfaceQwen", (⟨"Qwen/Qwen2.5-7B-Instruct", "huggingface", true,
        cannedTestPrompt, true⟩ : ModelConfig)) ∈ MODELS ∧
    (⟨"Qwen/Qwen2.5-7B-Instruct", "huggingface", true, cannedTestPrompt,
        true⟩ : ModelConfig).deprecated = true ∧
    ((∀ r, ("huggingfaceQwen", r) ∈ (checkAllModels true true true
        (fun n => { healthy := true, response := some n })).results →
        r.healthy = false) ∧
      ("Qwen/Qwen2.5-7B-Instruct" : String) ∉ (checkAllModels true true true
        (fun n => { healthy := true, response := some n })).probed) :=
  ⟨by decide, by decide,
    deprecated_never_probed true true true (fun n => { healthy := true, response := some n })
      "huggingfaceQwen"
      ⟨"Qwen/Qwen2.5-7B-Instruct", "huggingface", true, cannedTestPrompt, true⟩
      (by decide) (by decide)⟩

/-! ### Claim theorems: model-name resolution -/

/-- C8: resolution order of `isModelHealthy`: an exact cache key match wins;
otherwise the alias map is consulted and its mapped key looked up; and a
model with no entry under any resolution step - in particular against an
empty, never-probed cache - resolves to `true` (assume healthy), not
`false`. -/
theorem isModelHealthy_resolution :
    (∀ (cache : List (String × HealthResult)) (n : String) (r : HealthResult),
      lookupA cache n = some r → isModelHealthy cache n = r.healthy) ∧
    (∀ (cache : List (String × HealthResult)) (n k : String) (r : HealthResult),
      lookupA cache n = none →
      (modelNameMap.find? (fun kv => kv.1 == n)).map (·.2) = some k →
      lookupA cache k = some r →
      isModelHealthy cache n = r.healthy) ∧
    (∀ (cache : List (String × HealthResult)) (n : String) (b : Bool),
      lookupA cache n = none →
      ((modelNameMap.find? (fun kv => kv.1 == n)).map (·.2)).bind (lookupA cache)
        = none →
      MODELS.findSome? (fun kv =>
        if kv.2.name ≠ "" ∧ jsToLower kv.2.name == jsToLower n then
          (lookupA cache kv.1).map (·.healthy)
        else none) = some b →
      isModelHealthy cache n = b) ∧
    (∀ (cache : List (String × HealthResult)) (n : String),
      lookupA cache n = none →
      ((modelNameMap.find? (fun kv => kv.1 == n)).map (·.2)).bind (lookupA cache)
        = none →
      MODELS.findSome? (fun kv =>
        if kv.2.name ≠ "" ∧ jsToLower kv.2.name == jsToLower n then
          (lookupA cache kv.1).map (·.healthy)
        else none) = none →
      cache.findSome? (fun kv =>
        match modelConfig kv.1 with
        | some cfg =>
          if cfg.name ≠ "" ∧
              (substrB (jsToLower n) (jsToLower cfg.name) ∨
                substrB (jsToLower cfg.name) (jsToLower n)) then
            some kv.2.healthy
          else none
        | none => none) = none →
      isModelHealthy cache n = true) ∧
    (∀ n : String, isModelHealthy [] n = true) := by
  refine ⟨?_, ?_, ?_, ?_, ?_⟩
  · intro cache n r h
    unfold isModelHealthy
    rw [h]
  · intro cache n k r h1 h2 h3
    unfold isModelHealthy
    rw [h1, h2]
    simp only [Option.bind]
    rw [h3]
  · intro cache n b h1 h2 h3
    unfold isModelHealthy
    rw [h1, h2, h3]
  · intro cache n h1 h2 h3 h4
    unfold isModelHealthy
    rw [h1, h2, h3, h4]
  · intro n
    unfold isModelHealthy
    simp [lookupA, MODELS, List.findSome?]

/-- C8 witness: exact hit, alias hit, and the empty-cache default. -/
theorem isModelHealthy_resolution_witness :
    (lookupA [("gemini", deprecatedRecord)] "gemini" = some deprecatedRecord ∧
      isModelHealthy [("gemini", deprecatedRecord)] "gemini" = deprecatedRecord.healthy) ∧
    (lookupA [("openrouterMistral", deprecatedRecord)]
        "mistralai/mistral-7b-instruct:free" = none ∧
      (modelNameMap.find? (fun kv =>
        kv.1 == "mistralai/mistral-7b-instruct:free")).map (·.2)
        = some "openrouterMistral" ∧
      lookupA [("openrouterMistral", deprecatedRecord)] "openrouterMistral"
        = some deprecatedRecord ∧
      isModelHealthy [("openrouterMistral", deprecatedRecord)]
        "mistralai/mistral-7b-instruct:free" = deprecatedRecord.healthy) ∧
    isModelHealthy [("gemini", deprecatedRecord)] "GEMINI-2.5-FLASH"
      = deprecatedRecord.healthy ∧
    isModelHealthy [] "totally-unknown-model" = true := by
  refine ⟨⟨?_, ?_⟩, ⟨?_, ?_, ?_, ?_⟩, ?_, ?_⟩
  · decide
  · exact isModelHealthy_resolution.1 [("gemini", deprecatedRecord)] "gemini"
      deprecatedRecord (by decide)
  · decide
  · decide
  · decide
  · exact isModelHealthy_resolution.2.1 [("openrouterMistral", deprecatedRecord)]
      "mistralai/mistral-7b-instruct:free" "openrouterMistral" deprecatedRecord
      (by decide) (by decide) (by decide)
  · exact isModelHealthy_resolution.2.2.1 [("gemini", deprecatedRecord)]
      "GEMINI-2.5-FLASH" deprecatedRecord.healthy (by decide) (by decide)
      (by with_unfolding_all decide)
  · exact isModelHealthy_resolution.2.2.2.2 "totally-unknown-model"

/-! ### Claim theorems: prompt selection -/

theorem getDefaultPrompts_length (brandName industry : String) :
    (getDefaultPrompts brandName industry).length = 10 := by
  simp [getDefaultPrompts]

theorem promptsViaJsonArray_length (jsonParse : String → Option (Option (List String)))
    (cleaned : String) (ps : List String)
    (h : promptsViaJsonArray jsonParse cleaned = some ps) : ps.length = 10 := by
  unfold promptsViaJsonArray at h
  cases hm : matchJsonArray cleaned with
  | none => simp [hm] at h
  | some jsText =>
    simp only [hm] at h
    cases hp : jsonParse jsText with
    | none => simp [hp] at h
    | some inner =>
      simp only [hp] at h
      cases inner with
      | none => simp at h
      | some prompts =>
        simp only at h
        by_cases hlen : prompts.length ≥ 10
        · rw [if_pos hlen] at h
          obtain rfl : prompts.take 10 = ps := by injection h
          simp [List.length_take]
          omega
        · rw [if_neg hlen] at h
          exact absurd h (by simp)

theorem promptsViaLines_length (cleaned brandName industry : String) :
    (promptsViaLines cleaned brandName industry).length = 10 := by
  unfold promptsViaLines
  by_cases h : ((splitNl cleaned.data).filter promptLineFilter).length ≥ 10
  · rw [if_pos h]
    simp [List.length_take]
    omega
  · rw [if_neg h]
    exact getDefaultPrompts_length brandName industry

/-- C9: prompt selection never fails and never yields an empty set.  The
generator always returns exactly 10 prompts whatever the provider call and
JSON parse do; a thrown provider call yields exactly the pure-templating
defaults; a successful generation is wrapped one-to-one into templates all
tagged category `"custom"`; and the selection step returns a non-empty
prompt set whenever the generated list is non-empty (with the static
templates as the catch-all when the generation step itself throws). -/
theorem prompt_selection_robust :
    (∀ (call : GenCall) (jsonParse : String → Option (Option (List String)))
        (brandName industry : String),
      (generateBusinessPrompts call jsonParse brandName industry).length = 10) ∧
    (∀ (msg : String) (jsonParse : String → Option (Option (List String)))
        (brandName industry : String),
      generateBusinessPrompts (.callError msg) jsonParse brandName industry
        = getDefaultPrompts brandName industry) ∧
    (∀ ps : List String,
      (selectPrompts true (.ok ps)).length = ps.length ∧
      ∀ pt ∈ selectPrompts true (.ok ps), pt.category = "custom") ∧
    (∀ (isPremium : Bool) (gen : Except String (List String)),
      (∀ ps, gen = .ok ps → ps ≠ []) → selectPrompts isPremium gen ≠ []) := by
  refine ⟨?_, ?_, ?_, ?_⟩
  · intro call jsonParse brandName industry
    cases call with
    | callError msg => exact getDefaultPrompts_length brandName industry
    | callOk t =>
      show (match promptsViaJsonArray jsonParse (stripFences t) with
        | some ps => ps
        | none => promptsViaLines (stripFences t) brandName industry).length = 10
      cases hv : promptsViaJsonArray jsonParse (stripFences t) with
      | some ps => exact promptsViaJsonArray_length jsonParse (stripFences t) ps hv
      | none => exact promptsViaLines_length (stripFences t) brandName industry
  · intro msg jsonParse brandName industry
    rfl
  · intro ps
    constructor
    · simp [selectPrompts]
    · intro pt hpt
      simp only [selectPrompts, if_true, List.mem_map] at hpt
      obtain ⟨ip, _, rfl⟩ := hpt
      rfl
  · intro isPremium gen hok
    cases isPremium with
    | false => simp [selectPrompts, PROMPT_TEMPLATES]
    | true =>
      cases gen with
      | error e => simp [selectPrompts, PROMPT_TEMPLATES]
      | ok ps =>
        have hps : ps ≠ [] := hok ps rfl
        have hlen : (selectPrompts true (.ok ps)).length = ps.length := by
          simp [selectPrompts]
        intro hcontra
        rw [hcontra] at hlen
        exact hps (List.length_eq_zero.mp hlen.symm)

/-- C9 witness: a generation call that throws, and one that returns a
malformed (non-array) payload - both end in 10 usable prompts. -/
theorem prompt_selection_robust_witness :
    (generateBusinessPrompts (.callError "timeout") (fun _ => none)
        "Example" "retail").length = 10 ∧
    generateBusinessPrompts (.callError "timeout") (fun _ => none) "Example" "retail"
      = getDefaultPrompts "Example" "retail" ∧
    (generateBusinessPrompts (.callOk "no JSON here") (fun _ => some none)
        "Example" "").length = 10 ∧
    ((∀ ps, (Except.error "gen failed" : Except String (List String)) = .ok ps → ps ≠ []) ∧
      selectPrompts true (.error "gen failed") ≠ []) :=
  by
  refine ⟨?_, ?_, ?_, ?_, ?_⟩
  · exact prompt_selection_robust.1 (.callError "timeout") (fun _ => none) "Example" "retail"
  · exact prompt_selection_robust.2.1 "timeout" (fun _ => none) "Example" "retail"
  · exact prompt_selection_robust.1 (.callOk "no JSON here") (fun _ => some none)
      "Example" ""
  · exact fun ps h => nomatch h
  · exact prompt_selection_robust.2.2.2 true (.error "gen failed") (fun ps h => nomatch h)
